import Mathlib

/-!
Shallow embedding of the chart-layout core of the `plotters` chart crate
(files `src/chart/builder.rs`, `src/chart/context.rs`).  Pixel geometry is
modelled with `Int`; region splitting, margins and title bands follow the
Drawing Surface Adapter contract of the specification, the chart builder and
chart context operations are translated from the Rust source.
-/

namespace Plotters

/-- A pixel rectangle, the footprint of a `DrawingArea`: horizontal pixel
range `x0..x1` and vertical pixel range `y0..y1` (raw order: `y` grows
downward).  Modelled from the spec: the Drawing Surface Adapter exposes a
rectangular pixel region. -/
structure Rect where
  x0 : Int
  x1 : Int
  y0 : Int
  y1 : Int
deriving DecidableEq

/-- A pixel interval as stored in a coordinate spec; `rstart`/`rend` play the
role of Rust's `Range.start` and `Range.end`. -/
structure PRange where
  rstart : Int
  rend : Int
deriving DecidableEq

/-- Modelled from the spec: `dim_in_pixel` returns the width and height of a
region in pixels (clamped at zero for degenerate rectangles). -/
def Rect.dim_in_pixel (r : Rect) : Nat × Nat :=
  ((r.x1 - r.x0).toNat, (r.y1 - r.y0).toNat)

/-- Modelled from the spec: `base_pixel` is the offset of the region within
the full surface. -/
def Rect.base_pixel (r : Rect) : Int × Int :=
  (r.x0, r.y0)

/-- Modelled from the spec: `pixel_range` returns the horizontal and vertical
pixel intervals of the region, in raw order. -/
def Rect.get_pixel_range (r : Rect) : PRange × PRange :=
  (⟨r.x0, r.x1⟩, ⟨r.y0, r.y1⟩)

/-- Modelled from the spec: `margin(top, bottom, left, right)` shrinks the
region on the four sides. -/
def Rect.margin (r : Rect) (top bottom left right : Int) : Rect :=
  ⟨r.x0 + left, r.x1 - right, r.y0 + top, r.y1 - bottom⟩

/-- Font transforms used for rotated axis description text. -/
inductive FontTransform where
  | None
  | Rotate90
  | Rotate180
  | Rotate270
deriving DecidableEq

/-- A text style: its text-measuring capability (the backend's
`measure_text`, which may fail, hence `Option`) together with the current
font transform.  Modelled from the spec: the backend can query text bounding
boxes. -/
structure TextStyle where
  box_size : String → Option (Nat × Nat)
  trans : FontTransform

/-- Translation of `TextStyle::transform`: returns the style with the given
font transform attached. -/
def TextStyle.transform (s : TextStyle) (t : FontTransform) : TextStyle :=
  { s with trans := t }

/-- Modelled from the spec: `titled(text, style)` removes a title band from
the top of the region, sized by the text's measured bounds. -/
def Rect.titled (r : Rect) (text : String) (style : TextStyle) : Rect :=
  let h := ((style.box_size text).getD (0, 0)).2
  { r with y0 := r.y0 + (h : Int) }

/-- Modelled from the spec: `split(vertical_breakpoints,
horizontal_breakpoints)` splits a region into a grid of sub-regions,
enumerated row-major.  Breakpoints are relative to the region's own origin. -/
def Rect.split_by_breakpoints (r : Rect) (xbreaks ybreaks : List Int) : List Rect :=
  let xs := (r.x0 :: xbreaks.map (fun b => r.x0 + b)) ++ [r.x1]
  let ys := (r.y0 :: ybreaks.map (fun b => r.y0 + b)) ++ [r.y1]
  (ys.zip ys.tail).flatMap fun yc => (xs.zip xs.tail).map fun xc => ⟨xc.1, xc.2, yc.1, yc.2⟩

/-- Opaque identifier for a drawable element fed to `draw_series`; the
element's shape is external to the chart core (Drawable Element contract). -/
abbrev Elem := Nat

/-- A backend (pixel) coordinate. -/
abbrev BackendCoord := Int × Int

/-- Opaque shape style (the chart core only passes styles through). -/
abbrev ShapeStyle := Nat

/-- Translation of `SeriesAnno`: label text and legend-glyph constructor of
one drawn series, both initially absent. -/
structure SeriesAnno where
  label : Option String
  draw_func : Option (BackendCoord → Elem)

/-- Translation of `SeriesAnno::new`: a fresh annotation has no label and no
legend-glyph constructor. -/
def SeriesAnno.new : SeriesAnno :=
  { label := none, draw_func := none }

/-- Translation of `SeriesAnno::label` (renamed, the field keeps the source
name): sets the series label. -/
def SeriesAnno.set_label (a : SeriesAnno) (l : String) : SeriesAnno :=
  { a with label := some l }

/-- Translation of `SeriesAnno::legend`: sets the legend-glyph constructor. -/
def SeriesAnno.legend (a : SeriesAnno) (f : BackendCoord → Elem) : SeriesAnno :=
  { a with draw_func := some f }

/-- Translation of `ChartContext`: the four optional label-area regions, the
plotting region footprint, the pixel range stored in the attached coordinate
spec (vertical component inverted by `build_ranged`), and the series
annotation registry. -/
structure ChartContext where
  x_label_area : Option Rect × Option Rect
  y_label_area : Option Rect × Option Rect
  rect : Rect
  coord_pixel_range : PRange × PRange
  series_anno : List SeriesAnno

/-- Translation of `LabelAreaPosition`. -/
inductive LabelAreaPosition where
  | Top
  | Bottom
  | Left
  | Right
deriving DecidableEq

/-- The numeric index of a label-area position, as in the Rust enum
discriminants. -/
def LabelAreaPosition.idx : LabelAreaPosition → Fin 4
  | .Top => 0
  | .Bottom => 1
  | .Left => 2
  | .Right => 3

/-- Translation of `ChartBuilder`: four label-area sizes indexed by position
(0 = top, 1 = bottom, 2 = left, 3 = right), the root drawing area, the
optional caption and the margin. -/
structure ChartBuilder where
  label_area_size : Fin 4 → Nat
  root_area : Rect
  title : Option (String × TextStyle)
  margin : Nat

/-- Translation of `ChartBuilder::on`. -/
def ChartBuilder.on (root : Rect) : ChartBuilder :=
  { label_area_size := fun _ => 0, root_area := root, title := none, margin := 0 }

/-- Translation of `ChartBuilder::x_label_area_size`: sets slot 1 (bottom). -/
def ChartBuilder.x_label_area_size (b : ChartBuilder) (size : Nat) : ChartBuilder :=
  { b with label_area_size := Function.update b.label_area_size 1 size }

/-- Translation of `ChartBuilder::y_label_area_size`: sets slot 2 (left). -/
def ChartBuilder.y_label_area_size (b : ChartBuilder) (size : Nat) : ChartBuilder :=
  { b with label_area_size := Function.update b.label_area_size 2 size }

/-- Translation of `ChartBuilder::set_label_area_size`. -/
def ChartBuilder.set_label_area_size (b : ChartBuilder) (pos : LabelAreaPosition)
    (size : Nat) : ChartBuilder :=
  { b with label_area_size := Function.update b.label_area_size pos.idx size }

/-- Translation of `ChartBuilder::caption`. -/
def ChartBuilder.caption (b : ChartBuilder) (c : String) (style : TextStyle) : ChartBuilder :=
  { b with title := some (c, style) }

/-- The four orientation vectors used by the label-area loop of
`build_ranged`: top, bottom, left, right. -/
def orientation_vec : Fin 4 → Int × Int
  | 0 => (0, -1)
  | 1 => (0, 1)
  | 2 => (-1, 0)
  | 3 => (1, 0)

/-- The base coordinates `[0, h, 0, w]` that the breakpoint loop of
`build_ranged` starts from. -/
def area_base (w h : Int) : Fin 4 → Int
  | 0 => 0
  | 1 => h
  | 2 => 0
  | 3 => w

/-- Translation of the breakpoint loop of `build_ranged`: each edge's base
coordinate offset inward by the configured label size (sign chosen from the
orientation vector). -/
def actual_pos (sizes : Fin 4 → Nat) (w h : Int) (idx : Fin 4) : Int :=
  let d := orientation_vec idx
  let size : Int := (sizes idx : Int)
  let split_point := if d.1 + d.2 < 0 then size else -size
  area_base w h idx + split_point

/-- Translation of the body of `ChartBuilder::build_ranged` after margin and
title handling: split the working area into a 3-by-3 grid, keep the four
edge bands that have positive extent in both dimensions as label areas,
take the center as the plotting region, and attach the coordinate spec with
the vertical pixel range inverted. -/
def build_from_area (sizes : Fin 4 → Nat) (drawing_area : Rect) : ChartContext :=
  let wh := drawing_area.dim_in_pixel
  let pos := actual_pos sizes (wh.1 : Int) (wh.2 : Int)
  let splitted := drawing_area.split_by_breakpoints [pos 2, pos 3] [pos 0, pos 1]
  let cell := fun (i : Nat) => splitted.getD i ⟨0, 0, 0, 0⟩
  let assign := fun (i : Nat) =>
    let c := cell i
    let hw := c.dim_in_pixel
    if 0 < hw.1 ∧ 0 < hw.2 then some c else none
  let center := cell 4
  let pr := center.get_pixel_range
  { x_label_area := (assign 1, assign 7)
    y_label_area := (assign 3, assign 5)
    rect := center
    coord_pixel_range := (pr.1, ⟨pr.2.rend, pr.2.rstart⟩)
    series_anno := [] }

/-- Translation of `ChartBuilder::build_ranged`: apply the margin whenever it
is positive, then the title band whenever a caption is set, then partition
the working area.  (Backend failures of `titled` are outside the modelled
geometry; the model keeps the successful-path geometry.) -/
def ChartBuilder.build_ranged (b : ChartBuilder) : ChartContext :=
  let drawing_area0 := b.root_area
  let drawing_area1 :=
    if b.margin > 0 then
      drawing_area0.margin (b.margin : Int) (b.margin : Int) (b.margin : Int) (b.margin : Int)
    else drawing_area0
  let drawing_area2 :=
    match b.title with
    | some (t, style) => drawing_area1.titled t style
    | none => drawing_area1
  build_from_area b.label_area_size drawing_area2

/-- The slot of the built context that corresponds to a label-area index:
0 = top x slot, 1 = bottom x slot, 2 = left y slot, 3 = right y slot, the
same index-to-position mapping as `ChartBuilder::label_area_size`. -/
def label_slot (ctx : ChartContext) : Fin 4 → Option Rect
  | 0 => ctx.x_label_area.1
  | 1 => ctx.x_label_area.2
  | 2 => ctx.y_label_area.1
  | 3 => ctx.y_label_area.2

/-- The dual-coordinate context produced by `set_secondary_coord`: the primary
context plus the pixel range stored in the secondary coordinate spec. -/
structure DualCoordChartContext where
  primary : ChartContext
  secondary_pixel_range : PRange × PRange

/-- Translation of `ChartContext::set_secondary_coord`: reuse the plotting
region's pixel footprint, inverting the vertical component, to build the
secondary coordinate spec. -/
def ChartContext.set_secondary_coord (ctx : ChartContext) : DualCoordChartContext :=
  let pixel_range := ctx.rect.get_pixel_range
  { primary := ctx
    secondary_pixel_range := (pixel_range.1, ⟨pixel_range.2.rend, pixel_range.2.rstart⟩) }

/-- The drawing backend state seen by series drawing: the log of successfully
drawn elements and the backend-defined failure condition (which elements the
backend rejects).  Modelled from the spec: the Drawing Surface Adapter's draw
operations may fail with a backend-defined error. -/
structure Backend where
  drawn : List Elem
  fails : Elem → Bool

/-- Translation of `ChartContext::draw_series_impl`: draw the elements in
iteration order, aborting at the first backend failure.  The Rust method
mutates the shared backend and returns `Result`; the model threads the
backend state and returns it together with `true` for `Ok` and `false` for
`Err`. -/
def draw_series_impl (bk : Backend) : List Elem → Backend × Bool
  | [] => (bk, true)
  | e :: rest =>
    if bk.fails e then (bk, false)
    else draw_series_impl { bk with drawn := bk.drawn ++ [e] } rest

/-- Translation of `ChartContext::alloc_series_anno`: push a fresh annotation
and return the context together with the index of the new entry (the Rust
method returns a mutable reference into the registry; the model returns the
entry's index). -/
def ChartContext.alloc_series_anno (ctx : ChartContext) : ChartContext × Nat :=
  let idx := ctx.series_anno.length
  ({ ctx with series_anno := ctx.series_anno ++ [SeriesAnno.new] }, idx)

/-- Translation of `ChartContext::draw_series`: draw all elements, then on
success allocate a new annotation and hand back its handle; on failure the
context is unchanged and no handle is produced (`none` stands for `Err`). -/
def ChartContext.draw_series (ctx : ChartContext) (bk : Backend) (series : List Elem) :
    (ChartContext × Backend) × Option Nat :=
  let r := draw_series_impl bk series
  if r.2 then
    let a := ctx.alloc_series_anno
    ((a.1, r.1), some a.2)
  else ((ctx, r.1), none)

/-- A mesh line produced by the coordinate spec's tick generation, with its
two backend-coordinate endpoints and its (opaque) domain value. -/
inductive MeshLine where
  | XMesh (s e : Int × Int) (v : Int)
  | YMesh (s e : Int × Int) (v : Int)

/-- A drawing operation issued to a label-area or plotting region: a path, a
text draw, or a mesh-line draw. -/
inductive DrawOp where
  | path (pts : List (Int × Int)) (style : ShapeStyle)
  | text (t : String) (style : TextStyle) (pos : Int × Int)
  | mesh (l : MeshLine) (style : ShapeStyle)

/-- The fixed knob length of `draw_axis_and_labels` (source: `knob_size`). -/
def knob_size : Int := 5

/-- Translation of the first `match orientation` of the label loop of
`draw_axis_and_labels`: the anchor point of a label, or `none` for the
`panic!` arm (invalid orientation). -/
def labelAnchor (o : Int × Int) (right_most label_dist tw th p x0 y0 w h : Int) :
    Option (Int × Int) :=
  if o.1 > 0 ∧ o.2 = 0 then some (right_most - w, p - y0)
  else if o.1 < 0 ∧ o.2 = 0 then some (tw - label_dist - w, p - y0)
  else if o.1 = 0 ∧ o.2 > 0 then some (p - x0, label_dist + h)
  else if o.1 = 0 ∧ o.2 < 0 then some (p - x0, th - label_dist - h)
  else none

/-- Translation of the knob `match orientation` of `draw_axis_and_labels`:
the two endpoints of the knob tick mark, or `none` for the `panic!` arm. -/
def knobLine (o : Int × Int) (tw th p x0 y0 : Int) :
    Option ((Int × Int) × (Int × Int)) :=
  if o.1 > 0 ∧ o.2 = 0 then some ((0, p - y0), (knob_size, p - y0))
  else if o.1 < 0 ∧ o.2 = 0 then some ((tw - knob_size, p - y0), (tw, p - y0))
  else if o.1 = 0 ∧ o.2 > 0 then some ((p - x0, 0), (p - x0, knob_size))
  else if o.1 = 0 ∧ o.2 < 0 then some ((p - x0, th - knob_size), (p - x0, th))
  else none

/-- Translation of the body of the label loop of `draw_axis_and_labels` for
one tick `(p, t)`: clip against the plotting region's axis pixel range, place
the label, suppress it when it would overflow the label band, and draw the
knob when an axis style is supplied.  Returns the operations drawn for this
tick, or `none` when the `panic!` arm is reached. -/
def labelOp (axis_style : Option ShapeStyle) (label_style : TextStyle)
    (label_offset : Int) (o : Int × Int) (axis_range : PRange)
    (right_most label_dist tw th x0 y0 : Int) (pt : Int × String) :
    Option (List DrawOp) :=
  let p := pt.1
  let t := pt.2
  let rp := if o.1 = 0 then p - x0 else p - y0
  if rp < min axis_range.rstart axis_range.rend ∨ max axis_range.rend axis_range.rstart < rp then
    some []
  else
    let wh := (label_style.box_size t).getD (0, 0)
    let w : Int := (wh.1 : Int)
    let h : Int := (wh.2 : Int)
    match labelAnchor o right_most label_dist tw th p x0 y0 w h with
    | none => none
    | some c =>
      let cx := c.1
      let cy := c.2
      let should_draw : Bool :=
        if o.1 = 0 then decide (0 ≤ cx ∧ cx + label_offset + w / 2 ≤ tw)
        else decide (0 ≤ cy ∧ cy + label_offset + h / 2 ≤ th)
      if should_draw then
        let tpos := if o.1 = 0 then (cx - w / 2 + label_offset, cy)
                    else (cx, cy - h / 2 + label_offset)
        match axis_style with
        | none => some [DrawOp.text t label_style tpos]
        | some style =>
          match knobLine o tw th p x0 y0 with
          | none => none
          | some k => some [DrawOp.text t label_style tpos, DrawOp.path [k.1, k.2] style]
      else some []

/-- Translation of the axis-line drawing step of `draw_axis_and_labels`. -/
def axisLineOps (axis_style : Option ShapeStyle) (o : Int × Int) (axis_range : PRange)
    (tw th : Int) : List DrawOp :=
  match axis_style with
  | none => []
  | some style =>
    let ax0 := if o.1 > 0 then 0 else tw
    let ay0 := if o.2 > 0 then 0 else th
    let ax1 := if o.1 ≥ 0 then 0 else tw
    let ay1 := if o.2 ≥ 0 then 0 else th
    if o.1 = 0 then
      [DrawOp.path [(axis_range.rstart, ay0), (axis_range.rend, ay1)] style]
    else
      [DrawOp.path [(ax0, axis_range.rstart), (ax1, axis_range.rend)] style]

/-- Translation of the axis-description step of `draw_axis_and_labels`:
rotate the style for the vertical bands, center the text along the band, or
`none` for the `panic!` arm.  (The source computes the anchor in unsigned
pixel arithmetic; the model uses truncated natural subtraction.) -/
def axisDescOps (o : Int × Int) (tw th : Nat) (axis_desc : Option (String × TextStyle)) :
    Option (List DrawOp) :=
  match axis_desc with
  | none => some []
  | some (text, style) =>
    let actual_style :=
      if o.1 = 0 then style
      else if o.1 = -1 then style.transform FontTransform.Rotate270
      else style.transform FontTransform.Rotate90
    let wh := (actual_style.box_size text).getD (0, 0)
    let w := wh.1
    let h := wh.2
    if o.1 > 0 ∧ o.2 = 0 then
      some [DrawOp.text text actual_style ((tw - w : Nat), ((th - h) / 2 : Nat))]
    else if o.1 < 0 ∧ o.2 = 0 then
      some [DrawOp.text text actual_style (0, ((th - h) / 2 : Nat))]
    else if o.1 = 0 ∧ o.2 > 0 then
      some [DrawOp.text text actual_style (((tw - w) / 2 : Nat), (th - h : Nat))]
    else if o.1 = 0 ∧ o.2 < 0 then
      some [DrawOp.text text actual_style (((tw - w) / 2 : Nat), 0)]
    else none

/-- Runs the per-tick body over the label list, concatenating the drawn
operations in order and propagating the `panic!` arm. -/
def collectOps (f : Int × String → Option (List DrawOp)) :
    List (Int × String) → Option (List DrawOp)
  | [] => some []
  | pt :: rest =>
    match f pt, collectOps f rest with
    | some a, some b => some (a ++ b)
    | _, _ => none

/-- Accessor for the x pixel range stored in the attached coordinate spec.
Modelled from the spec: `get_x_axis_pixel_range` returns the plotting
region's x axis pixel range as recorded in the coordinate spec. -/
def ChartContext.get_x_axis_pixel_range (ctx : ChartContext) : PRange :=
  ctx.coord_pixel_range.1

/-- Accessor for the y pixel range stored in the attached coordinate spec
(the inverted range recorded by `build_ranged`).  Modelled from the spec. -/
def ChartContext.get_y_axis_pixel_range (ctx : ChartContext) : PRange :=
  ctx.coord_pixel_range.2

/-- The sequencing of axis line, label loop and axis description of
`draw_axis_and_labels`, over the values computed from the label area: runs
the label loop and the description step, propagating the `panic!` arm (the
two `match`es translate the `?`-style early exits). -/
def draw_axis_core (axis_style : Option ShapeStyle) (label_style : TextStyle)
    (label_offset : Int) (o : Int × Int) (axis_range : PRange)
    (right_most label_dist tw th x0 y0 : Int) (twn thn : Nat)
    (labels : List (Int × String)) (axis_desc : Option (String × TextStyle)) :
    Option (List DrawOp) :=
  let aops := axisLineOps axis_style o axis_range tw th
  match collectOps
      (labelOp axis_style label_style label_offset o axis_range right_most label_dist
        tw th x0 y0) labels with
  | none => none
  | some lops =>
    match axisDescOps o twn thn axis_desc with
    | none => none
    | some dops => some (aops ++ lops ++ dops)

/-- Translation of `ChartContext::draw_axis_and_labels`: skip absent areas,
draw the axis line, the clipped tick labels with their knobs, and the axis
description.  Returns the list of drawing operations issued on the label
area, or `none` when an invalid orientation reaches a `panic!` arm. -/
def ChartContext.draw_axis_and_labels (ctx : ChartContext) (area : Option Rect)
    (axis_style : Option ShapeStyle) (labels : List (Int × String))
    (label_style : TextStyle) (label_offset : Int) (o : Int × Int)
    (axis_desc : Option (String × TextStyle)) : Option (List DrawOp) :=
  match area with
  | none => some []
  | some area =>
    let base := ctx.rect.base_pixel
    let x0 := base.1
    let y0 := base.2
    let label_dist : Int := if o.2 > 0 then 0 else 10
    let twth := area.dim_in_pixel
    let tw : Int := (twth.1 : Int)
    let th : Int := (twth.2 : Int)
    let ar0 := if o.1 = 0 then ctx.get_x_axis_pixel_range else ctx.get_y_axis_pixel_range
    let axis_range : PRange :=
      if o.1 = 0 then ⟨ar0.rstart - x0, ar0.rend - x0⟩
      else ⟨ar0.rstart - y0, ar0.rend - y0⟩
    let right_most : Int :=
      if o.1 > 0 ∧ o.2 = 0 then
        (((labels.map (fun pt => ((label_style.box_size pt.2).getD (0, 0)).1)).foldr max 0 : Nat) : Int)
          + label_dist
      else 0
    draw_axis_core axis_style label_style label_offset o axis_range right_most label_dist
      tw th x0 y0 twth.1 twth.2 labels axis_desc

/-- Translation of the closure body of `draw_mesh_lines` folded over the
generated mesh lines: collect the formatted label of every line into the
x or y label list, and draw the line itself only when its toggle is on. -/
def meshStep (toggles : Bool × Bool) (mesh_line_style : ShapeStyle)
    (fmt_label : MeshLine → Option String)
    (acc : List DrawOp × List (Int × String) × List (Int × String)) (l : MeshLine) :
    List DrawOp × List (Int × String) × List (Int × String) :=
  match l with
  | MeshLine.XMesh s _ _ =>
    let xl := match fmt_label l with
      | some label_text => acc.2.1 ++ [(s.1, label_text)]
      | none => acc.2.1
    let ops := if toggles.1 then acc.1 ++ [DrawOp.mesh l mesh_line_style] else acc.1
    (ops, xl, acc.2.2)
  | MeshLine.YMesh s _ _ =>
    let yl := match fmt_label l with
      | some label_text => acc.2.2 ++ [(s.2, label_text)]
      | none => acc.2.2
    let ops := if toggles.2 then acc.1 ++ [DrawOp.mesh l mesh_line_style] else acc.1
    (ops, acc.2.1, yl)

/-- Translation of `ChartContext::draw_mesh_lines`: delegate tick generation
to the coordinate spec (modelled from the spec as the function `gen`, called
with the requested row and column counts), then run the closure body over
every generated mesh line.  Returns the mesh drawing operations and the
collected x and y labels. -/
def ChartContext.draw_mesh_lines (_ctx : ChartContext)
    (gen : Nat → Nat → List MeshLine) (rc : Nat × Nat) (toggles : Bool × Bool)
    (mesh_line_style : ShapeStyle) (fmt_label : MeshLine → Option String) :
    List DrawOp × List (Int × String) × List (Int × String) :=
  (gen rc.1 rc.2).foldl (meshStep toggles mesh_line_style fmt_label) ([], [], [])

/-- Translation of `ChartContext::draw_mesh`: draw the mesh lines, then for
each of the two slots per axis render axis, knobs, labels and description
with the four fixed orientation vectors.  Returns all issued drawing
operations, or `none` when any call reaches a `panic!` arm. -/
def ChartContext.draw_mesh (ctx : ChartContext) (gen : Nat → Nat → List MeshLine)
    (rc : Nat × Nat) (mesh_line_style : ShapeStyle) (label_style : TextStyle)
    (fmt_label : MeshLine → Option String) (x_mesh y_mesh : Bool)
    (x_label_offset y_label_offset : Int) (x_axis y_axis : Bool)
    (axis_style : ShapeStyle) (axis_desc_style : TextStyle)
    (x_desc y_desc : Option String) : Option (List DrawOp) :=
  let r0 := ctx.draw_mesh_lines gen rc (x_mesh, y_mesh) mesh_line_style fmt_label
  let x_labels := r0.2.1
  let y_labels := r0.2.2
  let callx := fun (idx : Nat) =>
    ctx.draw_axis_and_labels
      (if idx = 0 then ctx.x_label_area.1 else ctx.x_label_area.2)
      (if x_axis then some axis_style else none) x_labels label_style x_label_offset
      (0, -1 + (idx : Int) * 2) (x_desc.map (fun d => (d, axis_desc_style)))
  let cally := fun (idx : Nat) =>
    ctx.draw_axis_and_labels
      (if idx = 0 then ctx.y_label_area.1 else ctx.y_label_area.2)
      (if y_axis then some axis_style else none) y_labels label_style y_label_offset
      (-1 + (idx : Int) * 2, 0) (y_desc.map (fun d => (d, axis_desc_style)))
  match callx 0, cally 0, callx 1, cally 1 with
  | some a, some b, some c, some d => some (r0.1 ++ a ++ b ++ c ++ d)
  | _, _, _, _ => none

/-! ## Helper lemmas about the partition grid -/

lemma split2_cell1 (r : Rect) (a b c d : Int) :
    (r.split_by_breakpoints [a, b] [c, d]).getD 1 ⟨0, 0, 0, 0⟩ =
      ⟨r.x0 + a, r.x0 + b, r.y0, r.y0 + c⟩ := rfl

lemma split2_cell3 (r : Rect) (a b c d : Int) :
    (r.split_by_breakpoints [a, b] [c, d]).getD 3 ⟨0, 0, 0, 0⟩ =
      ⟨r.x0, r.x0 + a, r.y0 + c, r.y0 + d⟩ := rfl

lemma split2_cell4 (r : Rect) (a b c d : Int) :
    (r.split_by_breakpoints [a, b] [c, d]).getD 4 ⟨0, 0, 0, 0⟩ =
      ⟨r.x0 + a, r.x0 + b, r.y0 + c, r.y0 + d⟩ := rfl

lemma split2_cell5 (r : Rect) (a b c d : Int) :
    (r.split_by_breakpoints [a, b] [c, d]).getD 5 ⟨0, 0, 0, 0⟩ =
      ⟨r.x0 + b, r.x1, r.y0 + c, r.y0 + d⟩ := rfl

lemma split2_cell7 (r : Rect) (a b c d : Int) :
    (r.split_by_breakpoints [a, b] [c, d]).getD 7 ⟨0, 0, 0, 0⟩ =
      ⟨r.x0 + a, r.x0 + b, r.y0 + d, r.y1⟩ := rfl

lemma actual_pos_zero (sizes : Fin 4 → Nat) (w h : Int) :
    actual_pos sizes w h 0 = (sizes 0 : Int) := by
  unfold actual_pos orientation_vec area_base; norm_num

lemma actual_pos_one (sizes : Fin 4 → Nat) (w h : Int) :
    actual_pos sizes w h 1 = h - (sizes 1 : Int) := by
  unfold actual_pos orientation_vec area_base; norm_num; ring

lemma actual_pos_two (sizes : Fin 4 → Nat) (w h : Int) :
    actual_pos sizes w h 2 = (sizes 2 : Int) := by
  unfold actual_pos orientation_vec area_base; norm_num

lemma actual_pos_three (sizes : Fin 4 → Nat) (w h : Int) :
    actual_pos sizes w h 3 = w - (sizes 3 : Int) := by
  unfold actual_pos orientation_vec area_base; norm_num; ring

lemma build_from_area_zero_size (sizes : Fin 4 → Nat) (area : Rect) (idx : Fin 4)
    (h : sizes idx = 0) : label_slot (build_from_area sizes area) idx = none := by
  fin_cases idx <;>
  · first
      | replace h : sizes 0 = 0 := h
      | replace h : sizes 1 = 0 := h
      | replace h : sizes 2 = 0 := h
      | replace h : sizes 3 = 0 := h
    simp only [label_slot, build_from_area, Fin.isValue, split2_cell1, split2_cell3,
      split2_cell4, split2_cell5, split2_cell7, actual_pos_zero, actual_pos_one,
      actual_pos_two, actual_pos_three, Rect.dim_in_pixel]
    split_ifs with hc
    · exfalso; omega
    · rfl

/-! ## Claim theorems -/

/-- C4: the vertical pixel range stored in the coordinate spec is always the
inversion (end..start) of the plotting region's raw top-to-bottom vertical
pixel range, both in `build_ranged` and in `set_secondary_coord`. -/
theorem vertical_pixel_range_inverted (b : ChartBuilder) (ctx : ChartContext) :
    b.build_ranged.coord_pixel_range.2 =
      ⟨b.build_ranged.rect.get_pixel_range.2.rend,
        b.build_ranged.rect.get_pixel_range.2.rstart⟩ ∧
    ctx.set_secondary_coord.secondary_pixel_range.2 =
      ⟨ctx.set_secondary_coord.primary.rect.get_pixel_range.2.rend,
        ctx.set_secondary_coord.primary.rect.get_pixel_range.2.rstart⟩ := by
  constructor <;> rfl

/-- The builder of the specification's 400-by-300 layout scenario:
margin 20, bottom x label area 10, left y label area 10, no caption. -/
def c2_builder : ChartBuilder :=
  { label_area_size := ![0, 10, 10, 0]
    root_area := ⟨0, 400, 0, 300⟩
    title := none
    margin := 20 }

/-- C2: on a 400-by-300 surface with margin 20 and bottom/left label sizes 10,
`build_ranged` yields a plotting region of 350 by 250 pixels, a bottom-edge
x label band, a left-edge y label band, and no top or right label region. -/
theorem build_ranged_scenario :
    c2_builder.build_ranged.rect.dim_in_pixel = (400 - 2 * 20 - 10, 300 - 2 * 20 - 10) ∧
    c2_builder.build_ranged.x_label_area = (none, some ⟨30, 380, 270, 280⟩) ∧
    c2_builder.build_ranged.y_label_area = (some ⟨20, 30, 20, 270⟩, none) := by
  decide

/-- A caption style whose measured text box is 60 by 10 pixels. -/
def c1_style : TextStyle := ⟨fun _ => some (60, 10), FontTransform.None⟩

/-- A titled builder with margin 20 on a 400-by-300 surface. -/
def c1_margined : ChartBuilder :=
  { label_area_size := ![0, 0, 0, 0]
    root_area := ⟨0, 400, 0, 300⟩
    title := some ("caption", c1_style)
    margin := 20 }

/-- The same titled builder with margin 0. -/
def c1_unmargined : ChartBuilder := { c1_margined with margin := 0 }

/-- C1: contrary to the builder documentation, `build_ranged` does not skip
the margin shrink when a caption is set: with a title present, margin 20 and
margin 0 produce different plotting regions (the margin is applied before the
title band is carved). -/
theorem margin_applied_despite_caption :
    c1_margined.build_ranged.rect ≠ c1_unmargined.build_ranged.rect ∧
    c1_margined.title.isSome = true ∧ c1_margined.margin = 20 ∧
    c1_margined.build_ranged.rect = ⟨20, 380, 30, 280⟩ ∧
    c1_unmargined.build_ranged.rect = ⟨0, 400, 10, 300⟩ := by
  refine ⟨?_, rfl, rfl, ?_, ?_⟩ <;> decide

/-- C3: an edge whose configured label-area size is 0 gets no label region in
the built context: the corresponding slot is absent. -/
theorem zero_label_size_yields_absent_area (b : ChartBuilder) (idx : Fin 4)
    (h : b.label_area_size idx = 0) :
    label_slot b.build_ranged idx = none :=
  build_from_area_zero_size b.label_area_size _ idx h

/-- Builder with a zero top label size, for the C3 witness. -/
def c3_builder : ChartBuilder :=
  { label_area_size := ![0, 12, 9, 7]
    root_area := ⟨0, 100, 0, 80⟩
    title := none
    margin := 0 }

/-- Witness for C3 at a concrete input: top size 0 yields an absent top slot. -/
theorem zero_label_size_yields_absent_area_witness :
    c3_builder.label_area_size 0 = 0 ∧ label_slot c3_builder.build_ranged 0 = none :=
  ⟨by decide, zero_label_size_yields_absent_area c3_builder 0 (by decide)⟩

lemma draw_series_impl_drawn (bk : Backend) (series : List Elem) :
    (draw_series_impl bk series).1.drawn =
      bk.drawn ++ series.takeWhile (fun e => !bk.fails e) := by
  induction series generalizing bk with
  | nil => simp [draw_series_impl]
  | cons e rest ih =>
    unfold draw_series_impl
    by_cases hf : bk.fails e
    · simp [hf, List.takeWhile_cons]
    · simp only [hf, Bool.false_eq_true, if_false, List.takeWhile_cons,
        Bool.not_false, if_true, ih]
      simp [hf, List.append_assoc]

/-- C5: a successful `draw_series` call appends exactly one fresh,
unlabeled annotation at the end of the registry and returns its index; the
empty series succeeds trivially and still registers one entry. -/
theorem draw_series_appends_fresh_anno (ctx : ChartContext) (bk : Backend)
    (series : List Elem) :
    (∀ ctx' bk' idx, ctx.draw_series bk series = ((ctx', bk'), some idx) →
        ctx'.series_anno = ctx.series_anno ++ [SeriesAnno.new] ∧
        idx = ctx.series_anno.length) ∧
    (ctx.draw_series bk []).2 = some ctx.series_anno.length ∧
    SeriesAnno.new.label = none ∧ SeriesAnno.new.draw_func = none := by
  refine ⟨?_, rfl, rfl, rfl⟩
  intro ctx' bk' idx h
  unfold ChartContext.draw_series at h
  by_cases hr : (draw_series_impl bk series).2
  · simp only [hr, if_true, ChartContext.alloc_series_anno, Prod.mk.injEq,
      Option.some.injEq] at h
    obtain ⟨⟨hc, _⟩, hi⟩ := h
    exact ⟨hc ▸ rfl, hi.symm⟩
  · simp [hr] at h

def c5_ctx : ChartContext :=
  { x_label_area := (none, none), y_label_area := (none, none)
    rect := ⟨0, 10, 0, 10⟩, coord_pixel_range := (⟨0, 10⟩, ⟨10, 0⟩), series_anno := [] }

def c5_bk : Backend := { drawn := [], fails := fun _ => false }

/-- Witness for C5 at a concrete input: drawing the one-element series `[3]`
succeeds and appends the fresh annotation at index 0. -/
theorem draw_series_appends_fresh_anno_witness :
    ((c5_ctx.draw_series c5_bk [3]).1.1).series_anno =
        c5_ctx.series_anno ++ [SeriesAnno.new] ∧
    (0 : Nat) = c5_ctx.series_anno.length :=
  (draw_series_appends_fresh_anno c5_ctx c5_bk [3]).1
    ((c5_ctx.draw_series c5_bk [3]).1.1) ((c5_ctx.draw_series c5_bk [3]).1.2) 0 rfl

/-- C10: when `draw_series` fails, the registry is unchanged, while the
elements drawn before the failing element remain on the backend. -/
theorem draw_series_error_leaves_registry (ctx : ChartContext) (bk : Backend)
    (series : List Elem) (ctx' : ChartContext) (bk' : Backend)
    (h : ctx.draw_series bk series = ((ctx', bk'), none)) :
    ctx'.series_anno = ctx.series_anno ∧
    bk'.drawn = bk.drawn ++ series.takeWhile (fun e => !bk.fails e) := by
  unfold ChartContext.draw_series at h
  by_cases hr : (draw_series_impl bk series).2
  · simp [hr] at h
  · simp only [hr, Bool.false_eq_true, if_false, Prod.mk.injEq] at h
    obtain ⟨⟨hc, hb⟩, _⟩ := h
    exact ⟨hc ▸ rfl, hb ▸ draw_series_impl_drawn bk series⟩

def c10_bk : Backend := { drawn := [], fails := fun e => decide (e = 2) }

/-- Witness for C10 at a concrete input: with a backend that rejects element
2, drawing `[1, 2, 3]` fails, leaves the registry unchanged, and leaves
element 1 drawn. -/
theorem draw_series_error_leaves_registry_witness :
    ((c5_ctx.draw_series c10_bk [1, 2, 3]).1.1).series_anno = c5_ctx.series_anno ∧
    ((c5_ctx.draw_series c10_bk [1, 2, 3]).1.2).drawn =
      c10_bk.drawn ++ [1, 2, 3].takeWhile (fun e => !c10_bk.fails e) :=
  draw_series_error_leaves_registry c5_ctx c10_bk [1, 2, 3]
    ((c5_ctx.draw_series c10_bk [1, 2, 3]).1.1)
    ((c5_ctx.draw_series c10_bk [1, 2, 3]).1.2) rfl

/-- C6: a tick whose projection falls strictly outside the min/max envelope
of the plotting region's axis pixel range produces no drawing operation at
all in the label loop of `draw_axis_and_labels`: no label text and no knob. -/
theorem out_of_range_tick_not_drawn (axis_style : Option ShapeStyle)
    (label_style : TextStyle) (label_offset : Int) (o : Int × Int)
    (axis_range : PRange) (right_most label_dist tw th x0 y0 p : Int) (t : String)
    (h : (if o.1 = (0 : Int) then p - x0 else p - y0) <
          min axis_range.rstart axis_range.rend ∨
        max axis_range.rend axis_range.rstart <
          (if o.1 = (0 : Int) then p - x0 else p - y0)) :
    labelOp axis_style label_style label_offset o axis_range right_most label_dist
      tw th x0 y0 (p, t) = some [] := by
  have h' : (if o.1 = (0 : Int) then (p, t).1 - x0 else (p, t).1 - y0) <
        min axis_range.rstart axis_range.rend ∨
      max axis_range.rend axis_range.rstart <
        (if o.1 = (0 : Int) then (p, t).1 - x0 else (p, t).1 - y0) := h
  simp only [labelOp]
  rw [if_pos h']

def c6_style : TextStyle := ⟨fun _ => some (4, 3), FontTransform.None⟩

/-- Witness for C6 at a concrete input: the tick at pixel -5 lies below the
axis range 0..100 and produces no operations. -/
theorem out_of_range_tick_not_drawn_witness :
    labelOp (some 1) c6_style 0 (0, -1) ⟨0, 100⟩ 0 10 100 30 0 0 (-5, "z") = some [] :=
  out_of_range_tick_not_drawn (some 1) c6_style 0 (0, -1) ⟨0, 100⟩ 0 10 100 30 0 0 (-5) "z"
    (by decide)

lemma knobLine_shape (o : Int × Int) (tw th p x0 y0 : Int)
    (k : (Int × Int) × (Int × Int)) (h : knobLine o tw th p x0 y0 = some k) :
    k.2 = (k.1.1 + (if o.1 = 0 then 0 else knob_size),
      k.1.2 + (if o.1 = 0 then knob_size else 0)) := by
  unfold knobLine at h
  split_ifs at h with h1 h2 h3 h4
  · injection h with hh; subst hh
    have hne : ¬ o.1 = 0 := by omega
    simp [hne]
  · injection h with hh; subst hh
    have hne : ¬ o.1 = 0 := by omega
    simp [hne]
  · injection h with hh; subst hh
    simp [h3.1]
  · injection h with hh; subst hh
    simp [h4.1]

/-- C8: whenever the label loop of `draw_axis_and_labels` completes for a
tick, either nothing was drawn, or exactly the label text was drawn and no
axis style was supplied, or the label text plus exactly one knob (an
axis-aligned segment of length `knob_size`, perpendicular to the label
band's axis) was drawn with the supplied axis style. -/
theorem knob_iff_axis_style (axis_style : Option ShapeStyle)
    (label_style : TextStyle) (label_offset : Int) (o : Int × Int)
    (axis_range : PRange) (right_most label_dist tw th x0 y0 : Int)
    (pt : Int × String) (ops : List DrawOp)
    (h : labelOp axis_style label_style label_offset o axis_range right_most label_dist
        tw th x0 y0 pt = some ops) :
    ops = [] ∨
    (axis_style = none ∧ ∃ pos, ops = [DrawOp.text pt.2 label_style pos]) ∨
    (∃ s, axis_style = some s ∧ ∃ pos q,
      ops = [DrawOp.text pt.2 label_style pos,
        DrawOp.path [q, (q.1 + (if o.1 = 0 then 0 else knob_size),
          q.2 + (if o.1 = 0 then knob_size else 0))] s]) := by
  simp only [labelOp] at h
  split at h
  · split at h
    · left; exact (Option.some.inj h).symm
    · split at h
      · exact absurd h (by simp)
      · rename_i c hA
        split at h
        · split at h
          · right; left
            exact ⟨rfl, _, (Option.some.inj h).symm⟩
          · rename_i s
            split at h
            · exact absurd h (by simp)
            · rename_i k hK
              right; right
              have hops := (Option.some.inj h).symm
              rw [knobLine_shape o tw th pt.1 x0 y0 k hK] at hops
              exact ⟨s, rfl, _, k.1, hops⟩
        · left; exact (Option.some.inj h).symm
  · split at h
    · left; exact (Option.some.inj h).symm
    · split at h
      · exact absurd h (by simp)
      · rename_i c hA
        split at h
        · split at h
          · right; left
            exact ⟨rfl, _, (Option.some.inj h).symm⟩
          · rename_i s
            split at h
            · exact absurd h (by simp)
            · rename_i k hK
              right; right
              have hops := (Option.some.inj h).symm
              rw [knobLine_shape o tw th pt.1 x0 y0 k hK] at hops
              exact ⟨s, rfl, _, k.1, hops⟩
        · left; exact (Option.some.inj h).symm

/-- Witness for C8 at a concrete input: with an axis style supplied, the
drawn tick at pixel 50 yields its label text plus one length-5 knob. -/
theorem knob_iff_axis_style_witness :
    [DrawOp.text "x" c6_style (48, 17), DrawOp.path [(50, 25), (50, 30)] 7] =
        ([] : List DrawOp) ∨
    ((some 7 : Option ShapeStyle) = none ∧ ∃ pos,
      [DrawOp.text "x" c6_style (48, 17), DrawOp.path [(50, 25), (50, 30)] 7] =
        [DrawOp.text "x" c6_style pos]) ∨
    (∃ s, (some 7 : Option ShapeStyle) = some s ∧ ∃ pos q,
      [DrawOp.text "x" c6_style (48, 17), DrawOp.path [(50, 25), (50, 30)] 7] =
        [DrawOp.text "x" c6_style pos,
          DrawOp.path [q, (q.1 + (if (0 : Int) = 0 then 0 else knob_size),
            q.2 + (if (0 : Int) = 0 then knob_size else 0))] s]) :=
  knob_iff_axis_style (some 7) c6_style 0 (0, -1) ⟨0, 100⟩ 0 10 100 30 0 0 (50, "x")
    [DrawOp.text "x" c6_style (48, 17), DrawOp.path [(50, 25), (50, 30)] 7] (by rfl)

/-- Whether a mesh line's grid line is drawn under the given toggle pair. -/
def mesh_selected (toggles : Bool × Bool) : MeshLine → Bool
  | MeshLine.XMesh _ _ _ => toggles.1
  | MeshLine.YMesh _ _ _ => toggles.2

/-- The x-label entry a mesh line contributes (if the formatter returns one). -/
def x_label_of (fmt_label : MeshLine → Option String) (l : MeshLine) :
    Option (Int × String) :=
  match l with
  | MeshLine.XMesh s _ _ => (fmt_label l).map (fun txt => (s.1, txt))
  | MeshLine.YMesh _ _ _ => none

/-- The y-label entry a mesh line contributes (if the formatter returns one). -/
def y_label_of (fmt_label : MeshLine → Option String) (l : MeshLine) :
    Option (Int × String) :=
  match l with
  | MeshLine.XMesh _ _ _ => none
  | MeshLine.YMesh s _ _ => (fmt_label l).map (fun txt => (s.2, txt))

lemma meshStep_foldl (toggles : Bool × Bool) (style : ShapeStyle)
    (fmt_label : MeshLine → Option String) (ls : List MeshLine)
    (acc : List DrawOp × List (Int × String) × List (Int × String)) :
    ls.foldl (meshStep toggles style fmt_label) acc =
      (acc.1 ++ (ls.filter (mesh_selected toggles)).map (fun l => DrawOp.mesh l style),
        acc.2.1 ++ ls.filterMap (x_label_of fmt_label),
        acc.2.2 ++ ls.filterMap (y_label_of fmt_label)) := by
  induction ls generalizing acc with
  | nil => simp
  | cons l rest ih =>
    cases l with
    | XMesh s e v =>
      simp only [List.foldl_cons, ih, meshStep, List.filter_cons, List.filterMap_cons,
        mesh_selected, x_label_of, y_label_of]
      by_cases ht : toggles.1 = true <;>
        rcases hfm : fmt_label (MeshLine.XMesh s e v) with _ | txt <;>
          simp [ht, hfm, List.append_assoc]
    | YMesh s e v =>
      simp only [List.foldl_cons, ih, meshStep, List.filter_cons, List.filterMap_cons,
        mesh_selected, x_label_of, y_label_of]
      by_cases ht : toggles.2 = true <;>
        rcases hfm : fmt_label (MeshLine.YMesh s e v) with _ | txt <;>
          simp [ht, hfm, List.append_assoc]

/-- C7: in `draw_mesh_lines` the label lists collect, for every generated
mesh line, whatever the formatter returns, independently of the mesh
toggles, while a grid line is drawn on the backend exactly when its toggle
is on. -/
theorem mesh_labels_independent_of_toggles (ctx : ChartContext)
    (gen : Nat → Nat → List MeshLine) (rc : Nat × Nat) (toggles : Bool × Bool)
    (style : ShapeStyle) (fmt_label : MeshLine → Option String) :
    (ctx.draw_mesh_lines gen rc toggles style fmt_label).2.1 =
        (gen rc.1 rc.2).filterMap (x_label_of fmt_label) ∧
    (ctx.draw_mesh_lines gen rc toggles style fmt_label).2.2 =
        (gen rc.1 rc.2).filterMap (y_label_of fmt_label) ∧
    (ctx.draw_mesh_lines gen rc toggles style fmt_label).1 =
        ((gen rc.1 rc.2).filter (mesh_selected toggles)).map
          (fun l => DrawOp.mesh l style) := by
  unfold ChartContext.draw_mesh_lines
  rw [meshStep_foldl]
  simp

/-- The four orientation vectors that `draw_mesh` passes to
`draw_axis_and_labels`. -/
def valid_orientation (o : Int × Int) : Prop :=
  o = (0, -1) ∨ o = (0, 1) ∨ o = (-1, 0) ∨ o = (1, 0)

lemma labelAnchor_isSome (o : Int × Int) (right_most label_dist tw th p x0 y0 w h : Int)
    (hv : valid_orientation o) :
    (labelAnchor o right_most label_dist tw th p x0 y0 w h).isSome = true := by
  rcases hv with rfl | rfl | rfl | rfl <;> norm_num [labelAnchor]

lemma knobLine_isSome (o : Int × Int) (tw th p x0 y0 : Int) (hv : valid_orientation o) :
    (knobLine o tw th p x0 y0).isSome = true := by
  rcases hv with rfl | rfl | rfl | rfl <;> norm_num [knobLine]

lemma axisDescOps_isSome (o : Int × Int) (tw th : Nat)
    (axis_desc : Option (String × TextStyle)) (hv : valid_orientation o) :
    (axisDescOps o tw th axis_desc).isSome = true := by
  cases axis_desc with
  | none => rfl
  | some d =>
    rcases hv with rfl | rfl | rfl | rfl <;> norm_num [axisDescOps]

lemma labelOp_none (axis_style : Option ShapeStyle) (label_style : TextStyle)
    (label_offset : Int) (o : Int × Int) (axis_range : PRange)
    (right_most label_dist tw th x0 y0 : Int) (pt : Int × String)
    (h : labelOp axis_style label_style label_offset o axis_range right_most label_dist
      tw th x0 y0 pt = none) :
    labelAnchor o right_most label_dist tw th pt.1 x0 y0
        (((label_style.box_size pt.2).getD (0, 0)).1 : Int)
        (((label_style.box_size pt.2).getD (0, 0)).2 : Int) = none ∨
    knobLine o tw th pt.1 x0 y0 = none := by
  simp only [labelOp] at h
  split at h
  · split at h
    · exact absurd h (by simp)
    · split at h
      · rename_i hA
        left; exact hA
      · rename_i c hA
        split at h
        · split at h
          · exact absurd h (by simp)
          · split at h
            · rename_i hK
              right; exact hK
            · exact absurd h (by simp)
        · exact absurd h (by simp)
  · split at h
    · exact absurd h (by simp)
    · split at h
      · rename_i hA
        left; exact hA
      · rename_i c hA
        split at h
        · split at h
          · exact absurd h (by simp)
          · split at h
            · rename_i hK
              right; exact hK
            · exact absurd h (by simp)
        · exact absurd h (by simp)

lemma labelOp_isSome (axis_style : Option ShapeStyle) (label_style : TextStyle)
    (label_offset : Int) (o : Int × Int) (axis_range : PRange)
    (right_most label_dist tw th x0 y0 : Int) (pt : Int × String)
    (hv : valid_orientation o) :
    (labelOp axis_style label_style label_offset o axis_range right_most label_dist
      tw th x0 y0 pt).isSome = true := by
  cases hres : labelOp axis_style label_style label_offset o axis_range right_most
      label_dist tw th x0 y0 pt with
  | some ops => rfl
  | none =>
    rcases labelOp_none axis_style label_style label_offset o axis_range right_most
        label_dist tw th x0 y0 pt hres with hA | hK
    · have h2 := labelAnchor_isSome o right_most label_dist tw th pt.1 x0 y0
        (((label_style.box_size pt.2).getD (0, 0)).1 : Int)
        (((label_style.box_size pt.2).getD (0, 0)).2 : Int) hv
      rw [hA] at h2
      exact absurd h2 (by simp)
    · have h2 := knobLine_isSome o tw th pt.1 x0 y0 hv
      rw [hK] at h2
      exact absurd h2 (by simp)

lemma collectOps_isSome (f : Int × String → Option (List DrawOp))
    (ls : List (Int × String)) (hf : ∀ pt, (f pt).isSome = true) :
    (collectOps f ls).isSome = true := by
  induction ls with
  | nil => rfl
  | cons pt rest ih =>
    unfold collectOps
    obtain ⟨a, ha⟩ := Option.isSome_iff_exists.mp (hf pt)
    obtain ⟨b, hb⟩ := Option.isSome_iff_exists.mp ih
    rw [ha, hb]
    rfl

lemma draw_axis_core_isSome (axis_style : Option ShapeStyle) (label_style : TextStyle)
    (label_offset : Int) (o : Int × Int) (axis_range : PRange)
    (right_most label_dist tw th x0 y0 : Int) (twn thn : Nat)
    (labels : List (Int × String)) (axis_desc : Option (String × TextStyle))
    (hv : valid_orientation o) :
    (draw_axis_core axis_style label_style label_offset o axis_range right_most
      label_dist tw th x0 y0 twn thn labels axis_desc).isSome = true := by
  unfold draw_axis_core
  obtain ⟨lops, hl⟩ := Option.isSome_iff_exists.mp
    (collectOps_isSome
      (labelOp axis_style label_style label_offset o axis_range right_most label_dist
        tw th x0 y0) labels
      (fun pt => labelOp_isSome axis_style label_style label_offset o axis_range
        right_most label_dist tw th x0 y0 pt hv))
  obtain ⟨dops, hd⟩ := Option.isSome_iff_exists.mp (axisDescOps_isSome o twn thn axis_desc hv)
  rw [hl, hd]
  rfl

lemma draw_axis_and_labels_isSome (ctx : ChartContext) (area : Option Rect)
    (axis_style : Option ShapeStyle) (labels : List (Int × String))
    (label_style : TextStyle) (label_offset : Int) (o : Int × Int)
    (axis_desc : Option (String × TextStyle)) (hv : valid_orientation o) :
    (ctx.draw_axis_and_labels area axis_style labels label_style label_offset o
      axis_desc).isSome = true := by
  unfold ChartContext.draw_axis_and_labels
  cases area with
  | none => rfl
  | some a =>
    exact draw_axis_core_isSome _ _ _ _ _ _ _ _ _ _ _ _ _ _ _ hv

/-- C9: `draw_mesh` only ever calls `draw_axis_and_labels` with the four
fixed orientation vectors, so the invalid-orientation `panic!` branch is
unreachable: `draw_mesh` always produces a result. -/
theorem draw_mesh_never_panics (ctx : ChartContext) (gen : Nat → Nat → List MeshLine)
    (rc : Nat × Nat) (mesh_line_style : ShapeStyle) (label_style : TextStyle)
    (fmt_label : MeshLine → Option String) (x_mesh y_mesh : Bool)
    (x_label_offset y_label_offset : Int) (x_axis y_axis : Bool)
    (axis_style : ShapeStyle) (axis_desc_style : TextStyle)
    (x_desc y_desc : Option String) :
    (ctx.draw_mesh gen rc mesh_line_style label_style fmt_label x_mesh y_mesh
      x_label_offset y_label_offset x_axis y_axis axis_style axis_desc_style
      x_desc y_desc).isSome = true := by
  have hx0 : valid_orientation (0, -1 + ((0 : Nat) : Int) * 2) := by
    norm_num [valid_orientation]
  have hx1 : valid_orientation (0, -1 + ((1 : Nat) : Int) * 2) := by
    norm_num [valid_orientation]
  have hy0 : valid_orientation (-1 + ((0 : Nat) : Int) * 2, 0) := by
    norm_num [valid_orientation]
  have hy1 : valid_orientation (-1 + ((1 : Nat) : Int) * 2, 0) := by
    norm_num [valid_orientation]
  simp only [ChartContext.draw_mesh]
  split
  · rfl
  · rename_i h4
    obtain ⟨a, ha⟩ := Option.isSome_iff_exists.mp
      (draw_axis_and_labels_isSome ctx _ _ _ _ _ _ _ hx0)
    obtain ⟨b, hb⟩ := Option.isSome_iff_exists.mp
      (draw_axis_and_labels_isSome ctx _ _ _ _ _ _ _ hy0)
    obtain ⟨c, hc⟩ := Option.isSome_iff_exists.mp
      (draw_axis_and_labels_isSome ctx _ _ _ _ _ _ _ hx1)
    obtain ⟨d, hd⟩ := Option.isSome_iff_exists.mp
      (draw_axis_and_labels_isSome ctx _ _ _ _ _ _ _ hy1)
    exact (h4 a b c d ha hb hc hd).elim

end Plotters
